import Mathlib

/-!
Verification of the ppt2md service (src/app.py): a Flask endpoint that converts
PPT/PPTX uploads to Markdown, falling back to per-slide OCR when native text
extraction yields too little content.

The external collaborators (LibreOffice `soffice`, `pdftoppm`, the MarkItDown
library, the Gemini OCR model) are modelled as an oracle structure `Ext`: each
field records what the external call would return for this request (success
flag and captured stderr for subprocess calls, returned text for the
library/model calls).  The pipeline itself is translated statement by
statement from `src/app.py`, and every external invocation is additionally
recorded in an event trace so that ordering and never-invoked properties can
be stated.
-/

namespace Ppt2Md

/-- Observable external calls made while handling one request.
`runSoffice` is the `soffice --convert-to pdf` subprocess (`_run` in
`ppt_any_to_pdf`), `runPdftoppm` the rasterizer subprocess (`_run` in
`pdf_to_images`), `nativeExtractPptx`/`nativeExtractPdf` the MarkItDown
`convert` calls in `pptx_native_text`/`pdf_native_text`, and `geminiOcr p`
the `gemini_ocr` model call on the rendered image of page `p`. -/
inductive Event where
  | runSoffice : Event
  | runPdftoppm : Event
  | nativeExtractPptx : Event
  | nativeExtractPdf : Event
  | geminiOcr : Nat → Event
deriving DecidableEq, Repr

/-- Python exceptions that the handler's `try/except` distinguishes:
`subprocess.CalledProcessError` (carrying the captured stderr) and every
other exception (carrying `str(e)`). -/
inductive PyError where
  | calledProcess : String → PyError
  | runtime : String → PyError
deriving DecidableEq, Repr

/-- Oracle for the external world during one request: exit status and stderr
of the two subprocess tools, whether `soffice` actually produced a PDF file
(the `os.path.exists` / glob check in `ppt_any_to_pdf`), the page count of
the converted PDF, and the texts returned by MarkItDown and by the Gemini
model (before the `.strip()` the code applies). -/
structure Ext where
  sofficeOk : Bool
  sofficeStderr : String
  pdfProduced : Bool
  pdftoppmOk : Bool
  pdftoppmStderr : String
  numPages : Nat
  pptxText : String
  pdfText : String
  geminiText : Nat → String

/-- Process environment read at module load: `GOOGLE_API_KEY` (empty string
when unset, which Python treats as falsy) and `MIN_TEXT_CHARS` (an `int`,
default 80). `GEMINI_MODEL` and `PDF_DPI` do not affect control flow. -/
structure Env where
  GOOGLE_API_KEY : String
  MIN_TEXT_CHARS : Int

/-- One HTTP request to `POST /ppt2md`: the `ocr` query parameter, the
Content-Type header, the `X-Filename` header, the multipart `file` field
(filename and bytes) when the form carries one, and the raw body bytes. -/
structure Request where
  ocrArg : Option String
  contentType : String
  xFilename : Option String
  multipartFile : Option (String × List UInt8)
  rawBody : List UInt8

/-- JSON bodies the handler can return: `{error}`, `{error, hint}`,
`{error, detail}`, and the success payload
`{format, engine, strategy, chars, content_markdown}`. -/
inductive Body where
  | err : String → Body
  | errHint : String → String → Body
  | errDetail : String → String → Body
  | payload : String → String → String → Nat → String → Body
deriving DecidableEq, Repr

/-- An HTTP response: status code plus JSON body. -/
structure Response where
  status : Nat
  body : Body
deriving DecidableEq, Repr

/-- Python `str.lower()`, character by character (the strings the service
lowercases are ASCII: the `ocr` query value and filenames). -/
def pyLower (s : String) : String :=
  ⟨s.data.map Char.toLower⟩

/-- Python `str.strip()` with no argument: remove leading and trailing
whitespace. -/
def pyStrip (s : String) : String :=
  ⟨((s.data.dropWhile Char.isWhitespace).reverse.dropWhile Char.isWhitespace).reverse⟩

/-- Python `str.endswith(suffix)`. -/
def pyEndsWith (s suffix : String) : Bool :=
  suffix.data.isSuffixOf s.data

/-- Python `str.split(".")` on the character list of a string. -/
def splitDot : List Char → List (List Char)
  | [] => [[]]
  | x :: xs =>
      match splitDot xs with
      | [] => [[x]]
      | h :: t => if x = '.' then [] :: h :: t else (x :: h) :: t

/-- Substring occurrence on character lists, Python's `needle in hay`. -/
def hasSubstr : List Char → List Char → Bool
  | hay, needle =>
      match hay with
      | [] => needle.isEmpty
      | _ :: t => needle.isPrefixOf hay || hasSubstr t needle

/-- Python's substring test `needle in hay`. -/
def strContains (hay needle : String) : Bool :=
  hasSubstr hay.data needle.data

/-- `_ok_ext` from src/app.py line 16: lowercase the name and accept exactly
the `.ppt` and `.pptx` suffixes. -/
def _ok_ext (name : String) : Bool :=
  let n := pyLower name
  pyEndsWith n ".ppt" || pyEndsWith n ".pptx"

/-- The filename/data resolution of src/app.py lines 79-85: filename defaults
to the `X-Filename` header or `"arquivo.pptx"`; when the Content-Type
mentions `multipart/form-data` and the form has a `file` field, the file's
bytes are used and its filename overrides the default unless it is empty
(Python `f.filename or filename`); otherwise the raw body is used. -/
def resolveInput (req : Request) : String × List UInt8 :=
  let filename := req.xFilename.getD "arquivo.pptx"
  match req.multipartFile with
  | some fb =>
      if strContains req.contentType "multipart/form-data" then
        (if fb.1 = "" then filename else fb.1, fb.2)
      else (filename, req.rawBody)
  | none => (filename, req.rawBody)

/-- `request.args.get("ocr", "auto").lower()` from src/app.py line 78. -/
def ocrModeOf (req : Request) : String :=
  pyLower (req.ocrArg.getD "auto")

/-- `filename.lower().split(".")[-1]` from src/app.py line 97. -/
def extOf (filename : String) : String :=
  ⟨(splitDot (pyLower filename).data).getLastD []⟩

/-- `ppt_any_to_pdf` from src/app.py lines 23-32: run `soffice` (raising
`CalledProcessError` with captured stderr on non-zero exit), then require
that a PDF appeared, else raise `RuntimeError("Falha na conversão para PDF")`.
Returns the produced-PDF artifact (abstracted to `Unit`) plus the trace of
external calls made. -/
def ppt_any_to_pdf (ext : Ext) : Except PyError Unit × List Event :=
  if ext.sofficeOk then
    if ext.pdfProduced then (Except.ok (), [Event.runSoffice])
    else (Except.error (PyError.runtime "Falha na conversão para PDF"), [Event.runSoffice])
  else (Except.error (PyError.calledProcess ext.sofficeStderr), [Event.runSoffice])

/-- `pdf_to_images` from src/app.py lines 34-37: run `pdftoppm` (raising
`CalledProcessError` on non-zero exit) and collect the rendered page images
in page order; image files are identified by their 1-based page number. -/
def pdf_to_images (ext : Ext) : Except PyError (List Nat) × List Event :=
  if ext.pdftoppmOk then (Except.ok (List.range' 1 ext.numPages), [Event.runPdftoppm])
  else (Except.error (PyError.calledProcess ext.pdftoppmStderr), [Event.runPdftoppm])

/-- `gemini_ocr` from src/app.py lines 39-47 applied to the image of page
`page`: the model's text, with `(... or "").strip()` applied. -/
def gemini_ocr (ext : Ext) (page : Nat) : String :=
  pyStrip (ext.geminiText page)

/-- `ocr_pdf_with_gemini` from src/app.py lines 49-56: rasterize the PDF,
then for `i, img in enumerate(images, 1)` append
`f"# Slide {i}\n{gemini_ocr(img)}".strip()`, and join the sections with
blank lines, stripping the result. -/
def ocr_pdf_with_gemini (ext : Ext) : Except PyError String × List Event :=
  match pdf_to_images ext with
  | (Except.error e, tr) => (Except.error e, tr)
  | (Except.ok images, tr) =>
      (Except.ok (pyStrip (String.intercalate "\n\n"
          (images.enum.map (fun p =>
            pyStrip ("# Slide " ++ toString (p.1 + 1) ++ "\n" ++ gemini_ocr ext p.2))))),
       tr ++ images.map Event.geminiOcr)

/-- `pptx_native_text` from src/app.py lines 58-61: MarkItDown on the
uploaded pptx, `(text_content or "").strip()`. -/
def pptx_native_text (ext : Ext) : String :=
  pyStrip ext.pptxText

/-- `pdf_native_text` from src/app.py lines 63-66: MarkItDown on the
converted PDF, `(text_content or "").strip()`. -/
def pdf_native_text (ext : Ext) : String :=
  pyStrip ext.pdfText

/-- The native-text step of src/app.py lines 98-102: extract directly from
the pptx when the extension is `"pptx"`, otherwise convert to PDF first and
extract from the PDF. -/
def nativeStep (ext : Ext) (fext : String) : Except PyError String × List Event :=
  if fext = "pptx" then (Except.ok (pptx_native_text ext), [Event.nativeExtractPptx])
  else
    match ppt_any_to_pdf ext with
    | (Except.error e, tr) => (Except.error e, tr)
    | (Except.ok _, tr) => (Except.ok (pdf_native_text ext), tr ++ [Event.nativeExtractPdf])

/-- The text the native step yields when its external calls succeed. -/
def nativeTextOf (ext : Ext) (fext : String) : String :=
  if fext = "pptx" then pptx_native_text ext else pdf_native_text ext

/-- The OCR decision of src/app.py line 104:
`do_ocr = (ocr_mode == "force") or (ocr_mode == "auto" and len(native) < MIN_TEXT_CHARS)`. -/
def do_ocr (env : Env) (ocr_mode : String) (native : String) : Bool :=
  (ocr_mode == "force") || ((ocr_mode == "auto") && decide ((native.length : Int) < env.MIN_TEXT_CHARS))

/-- `ocr_pdf_with_gemini(ppt_any_to_pdf(src, tdir))` from src/app.py
line 110: convert to PDF, then OCR it. -/
def ocrStep (ext : Ext) : Except PyError String × List Event :=
  match ppt_any_to_pdf ext with
  | (Except.error e, tr) => (Except.error e, tr)
  | (Except.ok _, tr) =>
      match ocr_pdf_with_gemini ext with
      | (Except.error e, tr2) => (Except.error e, tr ++ tr2)
      | (Except.ok txt, tr2) => (Except.ok txt, tr ++ tr2)

/-- The `except` clauses of src/app.py lines 120-123: a
`CalledProcessError` becomes 500 with `{"error": "Erro em conversão
externa", "detail": stderr}`; any other exception becomes 500 with
`{"error": str(e)}`. -/
def errToResponse : PyError → Response
  | PyError.calledProcess stderr => ⟨500, Body.errDetail "Erro em conversão externa" stderr⟩
  | PyError.runtime msg => ⟨500, Body.err msg⟩

/-- The `POST /ppt2md` handler, src/app.py lines 72-123, returning the
response together with the trace of external calls it performed. -/
def ppt2md (ext : Ext) (env : Env) (req : Request) : Response × List Event :=
  let ocr_mode := ocrModeOf req
  let fd := resolveInput req
  if fd.2 = [] then (⟨400, Body.err "Nenhum arquivo recebido"⟩, [])
  else if _ok_ext fd.1 = false then (⟨415, Body.err "Envie .ppt ou .pptx"⟩, [])
  else
    let fext := extOf fd.1
    match nativeStep ext fext with
    | (Except.error e, tr) => (errToResponse e, tr)
    | (Except.ok native, tr1) =>
        if do_ocr env ocr_mode native then
          if env.GOOGLE_API_KEY = "" then
            (⟨500, Body.errHint "OCR necessário, mas GOOGLE_API_KEY não configurada"
                "defina GOOGLE_API_KEY ou use ?ocr=off"⟩, tr1)
          else
            match ocrStep ext with
            | (Except.error e, tr2) => (errToResponse e, tr1 ++ tr2)
            | (Except.ok txt, tr2) =>
                (⟨200, Body.payload fext "gemini-ocr"
                    (if ocr_mode = "force" then "ocr-forced" else "ocr-fallback")
                    txt.length txt⟩, tr1 ++ tr2)
        else
          (⟨200, Body.payload fext "markitdown-native" "native-only" native.length native⟩, tr1)

/-- The engine name in a success payload, if the response is one. -/
def engineOf (r : Response) : Option String :=
  match r.body with
  | Body.payload _ engine _ _ _ => some engine
  | _ => none

/-- The per-slide section the OCR loop builds for page `i`:
`f"# Slide {i}\n{gemini_ocr(...)}".strip()`. -/
def slideSection (ext : Ext) (i : Nat) : String :=
  pyStrip ("# Slide " ++ toString i ++ "\n" ++ gemini_ocr ext i)

/-- The full OCR output: per-slide sections for pages `1..numPages` in page
order, joined by blank lines and stripped. -/
def ocrTextAll (ext : Ext) : String :=
  pyStrip (String.intercalate "\n\n" ((List.range' 1 ext.numPages).map (slideSection ext)))

theorem range'_succ_map (s n : Nat) :
    List.range' (s + 1) n = (List.range' s n).map (fun k => k + 1) := by
  induction n generalizing s with
  | zero => rfl
  | succ n ih =>
      show (s + 1) :: List.range' (s + 2) n = ((s :: List.range' (s + 1) n).map (fun k => k + 1))
      rw [List.map_cons, ih (s + 1)]

theorem enumFrom_range' (s n : Nat) :
    (List.range' (s + 1) n).enumFrom s = (List.range' s n).map (fun k => (k, k + 1)) := by
  induction n generalizing s with
  | zero => rfl
  | succ n ih =>
      show (s, s + 1) :: (List.range' (s + 2) n).enumFrom (s + 1)
          = (s, s + 1) :: (List.range' (s + 1) n).map (fun k => (k, k + 1))
      rw [ih (s + 1)]

theorem ocr_sections_eq (ext : Ext) (n : Nat) :
    (List.range' 1 n).enum.map (fun p =>
        pyStrip ("# Slide " ++ toString (p.1 + 1) ++ "\n" ++ gemini_ocr ext p.2))
      = (List.range' 1 n).map (slideSection ext) := by
  show ((List.range' (0 + 1) n).enumFrom 0).map _ = _
  rw [enumFrom_range' 0 n, List.map_map]
  show _ = (List.range' (0 + 1) n).map (slideSection ext)
  rw [range'_succ_map 0 n, List.map_map]
  rfl

theorem ocr_pdf_with_gemini_ok (ext : Ext) (ht : ext.pdftoppmOk = true) :
    ocr_pdf_with_gemini ext =
      (Except.ok (ocrTextAll ext),
        Event.runPdftoppm :: (List.range' 1 ext.numPages).map Event.geminiOcr) := by
  unfold ocr_pdf_with_gemini pdf_to_images
  rw [ht]
  simp [ocrTextAll, ocr_sections_eq]

theorem ocr_pdf_with_gemini_fail (ext : Ext) (ht : ext.pdftoppmOk = false) :
    ocr_pdf_with_gemini ext =
      (Except.error (PyError.calledProcess ext.pdftoppmStderr), [Event.runPdftoppm]) := by
  unfold ocr_pdf_with_gemini pdf_to_images
  rw [ht]
  simp

theorem nativeStep_ok (ext : Ext) (fext : String) (hs : ext.sofficeOk = true)
    (hp : ext.pdfProduced = true) :
    nativeStep ext fext = (Except.ok (nativeTextOf ext fext),
      if fext = "pptx" then [Event.nativeExtractPptx]
      else [Event.runSoffice, Event.nativeExtractPdf]) := by
  unfold nativeStep ppt_any_to_pdf nativeTextOf
  rw [hs]
  by_cases hf : fext = "pptx" <;> simp [hf, hp]

theorem nativeStep_soffice_fail (ext : Ext) (fext : String) (hf : fext ≠ "pptx")
    (hs : ext.sofficeOk = false) :
    nativeStep ext fext
      = (Except.error (PyError.calledProcess ext.sofficeStderr), [Event.runSoffice]) := by
  unfold nativeStep ppt_any_to_pdf
  rw [hs]
  simp [hf]

theorem nativeStep_nopdf (ext : Ext) (fext : String) (hf : fext ≠ "pptx")
    (hs : ext.sofficeOk = true) (hp : ext.pdfProduced = false) :
    nativeStep ext fext
      = (Except.error (PyError.runtime "Falha na conversão para PDF"), [Event.runSoffice]) := by
  unfold nativeStep ppt_any_to_pdf
  rw [hs, hp]
  simp [hf]

theorem ocrStep_ok (ext : Ext) (hs : ext.sofficeOk = true) (hp : ext.pdfProduced = true)
    (ht : ext.pdftoppmOk = true) :
    ocrStep ext = (Except.ok (ocrTextAll ext),
      Event.runSoffice :: Event.runPdftoppm :: (List.range' 1 ext.numPages).map Event.geminiOcr) := by
  unfold ocrStep ppt_any_to_pdf
  rw [hs, hp, ocr_pdf_with_gemini_ok ext ht]
  simp

theorem ocrStep_raster_fail (ext : Ext) (hs : ext.sofficeOk = true) (hp : ext.pdfProduced = true)
    (ht : ext.pdftoppmOk = false) :
    ocrStep ext = (Except.error (PyError.calledProcess ext.pdftoppmStderr),
      [Event.runSoffice, Event.runPdftoppm]) := by
  unfold ocrStep ppt_any_to_pdf
  rw [hs, hp, ocr_pdf_with_gemini_fail ext ht]
  simp

/-- The decision predicate of line 104, as a proposition. -/
theorem do_ocr_iff (env : Env) (m native : String) :
    do_ocr env m native = true ↔
      (m = "force" ∨ (m = "auto" ∧ (native.length : Int) < env.MIN_TEXT_CHARS)) := by
  simp [do_ocr]

theorem nativeStep_pptx (ext : Ext) :
    nativeStep ext "pptx" = (Except.ok (pptx_native_text ext), [Event.nativeExtractPptx]) := by
  unfold nativeStep
  simp

/-- A mode that is neither `"force"` nor `"auto"` never triggers OCR. -/
theorem do_ocr_false_of_ne (env : Env) {m : String} (h1 : m ≠ "force") (h2 : m ≠ "auto")
    (native : String) : do_ocr env m native = false := by
  rcases Bool.eq_false_or_eq_true (do_ocr env m native) with h | h
  · rcases (do_ocr_iff env m native).mp h with hF | ⟨hA, _⟩
    · exact absurd hF h1
    · exact absurd hA h2
  · exact h

/-- Once the request passes the empty-body and extension checks, the handler
is the native step followed by the OCR decision. -/
theorem ppt2md_char (ext : Ext) (env : Env) (req : Request)
    (hd : (resolveInput req).2 ≠ []) (he : _ok_ext (resolveInput req).1 = true) :
    ppt2md ext env req =
      match nativeStep ext (extOf (resolveInput req).1) with
      | (Except.error e, tr) => (errToResponse e, tr)
      | (Except.ok native, tr1) =>
          if do_ocr env (ocrModeOf req) native then
            if env.GOOGLE_API_KEY = "" then
              (⟨500, Body.errHint "OCR necessário, mas GOOGLE_API_KEY não configurada"
                  "defina GOOGLE_API_KEY ou use ?ocr=off"⟩, tr1)
            else
              match ocrStep ext with
              | (Except.error e, tr2) => (errToResponse e, tr1 ++ tr2)
              | (Except.ok txt, tr2) =>
                  (⟨200, Body.payload (extOf (resolveInput req).1) "gemini-ocr"
                      (if ocrModeOf req = "force" then "ocr-forced" else "ocr-fallback")
                      txt.length txt⟩, tr1 ++ tr2)
          else
            (⟨200, Body.payload (extOf (resolveInput req).1) "markitdown-native" "native-only"
                native.length native⟩, tr1) := by
  simp [ppt2md, hd, he]

/-- Concrete external world used by the witnesses: every external call
succeeds, the converted PDF has two pages. -/
def extW : Ext :=
  { sofficeOk := true, sofficeStderr := "", pdfProduced := true, pdftoppmOk := true,
    pdftoppmStderr := "", numPages := 2, pptxText := "texto nativo",
    pdfText := "texto do pdf", geminiText := fun i => "linha " ++ toString i }

/-- Environment with the OCR credential configured and the default threshold. -/
def envW : Env := { GOOGLE_API_KEY := "chave", MIN_TEXT_CHARS := 80 }

/-- Environment with the OCR credential configured and a low threshold. -/
def envLow : Env := { GOOGLE_API_KEY := "chave", MIN_TEXT_CHARS := 5 }

/-- A raw-body request with `?ocr=force` and no filename header. -/
def reqForce : Request :=
  { ocrArg := some "force", contentType := "", xFilename := none,
    multipartFile := none, rawBody := [80] }

/-- A raw-body request with no `ocr` parameter (mode defaults to `auto`). -/
def reqAuto : Request :=
  { ocrArg := none, contentType := "", xFilename := none,
    multipartFile := none, rawBody := [80] }

/-- C1: for every request that reaches the decision step (non-empty data,
allowed extension, native extraction and the OCR externals all succeed, and
the credential is configured so the OCR path is observable), the OCR path is
taken — the returned engine is `"gemini-ocr"` — iff the mode is `"force"`,
or the mode is `"auto"` and the native text length is strictly below
`MIN_TEXT_CHARS`; in particular in force mode OCR runs however long the
native text is. -/
theorem c1_ocr_decision (ext : Ext) (env : Env) (req : Request)
    (hs : ext.sofficeOk = true) (hp : ext.pdfProduced = true) (ht : ext.pdftoppmOk = true)
    (hk : env.GOOGLE_API_KEY ≠ "") (hd : (resolveInput req).2 ≠ [])
    (he : _ok_ext (resolveInput req).1 = true) :
    engineOf (ppt2md ext env req).1 = some "gemini-ocr" ↔
      (ocrModeOf req = "force" ∨
        (ocrModeOf req = "auto" ∧
          ((nativeTextOf ext (extOf (resolveInput req).1)).length : Int) < env.MIN_TEXT_CHARS)) := by
  rw [← do_ocr_iff env (ocrModeOf req) (nativeTextOf ext (extOf (resolveInput req).1))]
  rw [ppt2md_char ext env req hd he,
    nativeStep_ok ext (extOf (resolveInput req).1) hs hp, ocrStep_ok ext hs hp ht]
  by_cases hdo : do_ocr env (ocrModeOf req) (nativeTextOf ext (extOf (resolveInput req).1)) <;>
    simp [hdo, hk, engineOf]

/-- C1 witness: a forced-OCR request through the concrete world. -/
theorem c1_witness :
    extW.sofficeOk = true ∧ extW.pdfProduced = true ∧ extW.pdftoppmOk = true ∧
    envW.GOOGLE_API_KEY ≠ "" ∧ (resolveInput reqForce).2 ≠ [] ∧
    _ok_ext (resolveInput reqForce).1 = true ∧
    (engineOf (ppt2md extW envW reqForce).1 = some "gemini-ocr" ↔
      (ocrModeOf reqForce = "force" ∨
        (ocrModeOf reqForce = "auto" ∧
          ((nativeTextOf extW (extOf (resolveInput reqForce).1)).length : Int)
            < envW.MIN_TEXT_CHARS))) :=
  ⟨rfl, rfl, rfl, by decide, by decide, by decide,
    c1_ocr_decision extW envW reqForce rfl rfl rfl (by decide) (by decide) (by decide)⟩

/-- Whenever the decision comes out false for every candidate native text,
the handler never calls the OCR client. -/
theorem ppt2md_never_ocr (ext : Ext) (env : Env) (req : Request)
    (hdo : ∀ native, do_ocr env (ocrModeOf req) native = false) :
    ∀ p, Event.geminiOcr p ∉ (ppt2md ext env req).2 := by
  intro p
  by_cases hd : (resolveInput req).2 = []
  · simp [ppt2md, hd]
  by_cases he : _ok_ext (resolveInput req).1 = true
  · rw [ppt2md_char ext env req hd he]
    by_cases hf : extOf (resolveInput req).1 = "pptx"
    · rw [hf, nativeStep_pptx ext]
      simp [hdo]
    · rcases Bool.eq_false_or_eq_true ext.sofficeOk with hs | hs
      · rcases Bool.eq_false_or_eq_true ext.pdfProduced with hp | hp
        · rw [nativeStep_ok ext _ hs hp]
          simp [hdo, hf]
        · rw [nativeStep_nopdf ext _ hf hs hp]
          simp
      · rw [nativeStep_soffice_fail ext _ hf hs]
        simp
  · simp [ppt2md, hd, he]

/-- C2: with OCR mode `"off"` the Gemini OCR client is never invoked,
whatever the native text length or the rest of the request. -/
theorem c2_off_never_ocr (ext : Ext) (env : Env) (req : Request)
    (h : ocrModeOf req = "off") :
    ∀ p, Event.geminiOcr p ∉ (ppt2md ext env req).2 :=
  ppt2md_never_ocr ext env req (by
    intro native
    rw [h]
    simp [do_ocr])

/-- C2 witness: an `?ocr=off` request with short native text. -/
theorem c2_witness :
    ocrModeOf { reqForce with ocrArg := some "off" } = "off" ∧
    ∀ p, Event.geminiOcr p ∉ (ppt2md extW envW { reqForce with ocrArg := some "off" }).2 :=
  ⟨by decide, c2_off_never_ocr extW envW { reqForce with ocrArg := some "off" } (by decide)⟩

/-- When the decision is false and the native path succeeded, the response
is the native text with the native-only markers. -/
theorem ppt2md_native_only (ext : Ext) (env : Env) (req : Request)
    (hs : ext.sofficeOk = true) (hp : ext.pdfProduced = true)
    (hd : (resolveInput req).2 ≠ []) (he : _ok_ext (resolveInput req).1 = true)
    (hdo : do_ocr env (ocrModeOf req) (nativeTextOf ext (extOf (resolveInput req).1)) = false) :
    (ppt2md ext env req).1 =
      ⟨200, Body.payload (extOf (resolveInput req).1) "markitdown-native" "native-only"
        (nativeTextOf ext (extOf (resolveInput req).1)).length
        (nativeTextOf ext (extOf (resolveInput req).1))⟩ := by
  rw [ppt2md_char ext env req hd he, nativeStep_ok ext (extOf (resolveInput req).1) hs hp]
  simp [hdo]

/-- C3: in auto mode with native text at or above the threshold, the
response is 200 with the native text unchanged, engine
`"markitdown-native"` and strategy `"native-only"`. -/
theorem c3_auto_sufficient_native (ext : Ext) (env : Env) (req : Request)
    (hs : ext.sofficeOk = true) (hp : ext.pdfProduced = true)
    (hd : (resolveInput req).2 ≠ []) (he : _ok_ext (resolveInput req).1 = true)
    (hm : ocrModeOf req = "auto")
    (hlen : env.MIN_TEXT_CHARS ≤ ((nativeTextOf ext (extOf (resolveInput req).1)).length : Int)) :
    (ppt2md ext env req).1 =
      ⟨200, Body.payload (extOf (resolveInput req).1) "markitdown-native" "native-only"
        (nativeTextOf ext (extOf (resolveInput req).1)).length
        (nativeTextOf ext (extOf (resolveInput req).1))⟩ := by
  have hdo : do_ocr env (ocrModeOf req) (nativeTextOf ext (extOf (resolveInput req).1)) = false := by
    rcases Bool.eq_false_or_eq_true
        (do_ocr env (ocrModeOf req) (nativeTextOf ext (extOf (resolveInput req).1))) with h' | h'
    · rcases (do_ocr_iff env _ _).mp h' with hF | ⟨_, hlt⟩
      · rw [hm] at hF
        exact absurd hF (by decide)
      · omega
    · exact h'
  exact ppt2md_native_only ext env req hs hp hd he hdo

/-- C3 witness: default (auto) mode, 12 characters of native text against a
threshold of 5. -/
theorem c3_witness :
    extW.sofficeOk = true ∧ extW.pdfProduced = true ∧
    (resolveInput reqAuto).2 ≠ [] ∧ _ok_ext (resolveInput reqAuto).1 = true ∧
    ocrModeOf reqAuto = "auto" ∧
    envLow.MIN_TEXT_CHARS ≤ ((nativeTextOf extW (extOf (resolveInput reqAuto).1)).length : Int) ∧
    (ppt2md extW envLow reqAuto).1 =
      ⟨200, Body.payload (extOf (resolveInput reqAuto).1) "markitdown-native" "native-only"
        (nativeTextOf extW (extOf (resolveInput reqAuto).1)).length
        (nativeTextOf extW (extOf (resolveInput reqAuto).1))⟩ :=
  ⟨rfl, rfl, by decide, by decide, by decide, by decide,
    c3_auto_sufficient_native extW envLow reqAuto rfl rfl (by decide) (by decide)
      (by decide) (by decide)⟩

/-- C4: once a request passes validation, the native-text path runs before
any OCR call: for a pptx upload the first external action is the direct
MarkItDown extraction, otherwise it is the conversion to PDF (followed by
extraction from the PDF); the trace splits into an OCR-free prefix that
already contains a native extraction whenever any Gemini call follows. -/
theorem c4_native_before_ocr (ext : Ext) (env : Env) (req : Request)
    (hd : (resolveInput req).2 ≠ []) (he : _ok_ext (resolveInput req).1 = true) :
    (extOf (resolveInput req).1 = "pptx" →
        (ppt2md ext env req).2.head? = some Event.nativeExtractPptx)
    ∧ (extOf (resolveInput req).1 ≠ "pptx" →
        (ppt2md ext env req).2.head? = some Event.runSoffice)
    ∧ ∃ pre post, (ppt2md ext env req).2 = pre ++ post
        ∧ (∀ p, Event.geminiOcr p ∉ pre)
        ∧ ((∃ p, Event.geminiOcr p ∈ post) →
            Event.nativeExtractPptx ∈ pre ∨ Event.nativeExtractPdf ∈ pre) := by
  by_cases hf : extOf (resolveInput req).1 = "pptx"
  · by_cases hdo : do_ocr env (ocrModeOf req) (pptx_native_text ext)
    · by_cases hk : env.GOOGLE_API_KEY = ""
      · have hcc : (ppt2md ext env req).2 = [Event.nativeExtractPptx] := by
          simp [ppt2md_char ext env req hd he, hf, nativeStep_pptx, hdo, hk]
        rw [hcc]
        exact ⟨fun _ => rfl, fun h' => absurd hf h', [Event.nativeExtractPptx], [],
          by simp, by simp, by simp⟩
      · rcases hos : ocrStep ext with ⟨res, tr2⟩
        have hcc : (ppt2md ext env req).2 = [Event.nativeExtractPptx] ++ tr2 := by
          cases res <;>
            simp [ppt2md_char ext env req hd he, hf, nativeStep_pptx, hdo, hk, hos]
        rw [hcc]
        exact ⟨fun _ => rfl, fun h' => absurd hf h', [Event.nativeExtractPptx], tr2,
          rfl, by simp, fun _ => Or.inl (by simp)⟩
    · have hcc : (ppt2md ext env req).2 = [Event.nativeExtractPptx] := by
        simp [ppt2md_char ext env req hd he, hf, nativeStep_pptx, hdo]
      rw [hcc]
      exact ⟨fun _ => rfl, fun h' => absurd hf h', [Event.nativeExtractPptx], [],
        by simp, by simp, by simp⟩
  · rcases Bool.eq_false_or_eq_true ext.sofficeOk with hs | hs
    · rcases Bool.eq_false_or_eq_true ext.pdfProduced with hp | hp
      · by_cases hdo : do_ocr env (ocrModeOf req) (nativeTextOf ext (extOf (resolveInput req).1))
        · by_cases hk : env.GOOGLE_API_KEY = ""
          · have hcc : (ppt2md ext env req).2
                = [Event.runSoffice, Event.nativeExtractPdf] := by
              simp [ppt2md_char ext env req hd he, nativeStep_ok ext _ hs hp, hf, hdo, hk]
            rw [hcc]
            exact ⟨fun h' => absurd h' hf, fun _ => rfl,
              [Event.runSoffice, Event.nativeExtractPdf], [], by simp, by simp, by simp⟩
          · rcases hos : ocrStep ext with ⟨res, tr2⟩
            have hcc : (ppt2md ext env req).2
                = [Event.runSoffice, Event.nativeExtractPdf] ++ tr2 := by
              cases res <;>
                simp [ppt2md_char ext env req hd he, nativeStep_ok ext _ hs hp, hf, hdo,
                  hk, hos]
            rw [hcc]
            exact ⟨fun h' => absurd h' hf, fun _ => rfl,
              [Event.runSoffice, Event.nativeExtractPdf], tr2, rfl, by simp,
              fun _ => Or.inr (by simp)⟩
        · have hcc : (ppt2md ext env req).2 = [Event.runSoffice, Event.nativeExtractPdf] := by
            simp [ppt2md_char ext env req hd he, nativeStep_ok ext _ hs hp, hf, hdo]
          rw [hcc]
          exact ⟨fun h' => absurd h' hf, fun _ => rfl,
            [Event.runSoffice, Event.nativeExtractPdf], [], by simp, by simp, by simp⟩
      · have hcc : (ppt2md ext env req).2 = [Event.runSoffice] := by
          simp [ppt2md_char ext env req hd he, nativeStep_nopdf ext _ hf hs hp]
        rw [hcc]
        exact ⟨fun h' => absurd h' hf, fun _ => rfl, [Event.runSoffice], [],
          by simp, by simp, by simp⟩
    · have hcc : (ppt2md ext env req).2 = [Event.runSoffice] := by
        simp [ppt2md_char ext env req hd he, nativeStep_soffice_fail ext _ hf hs]
      rw [hcc]
      exact ⟨fun h' => absurd h' hf, fun _ => rfl, [Event.runSoffice], [],
        by simp, by simp, by simp⟩

/-- C4 witness: a forced-OCR pptx request through the concrete world. -/
theorem c4_witness :
    (resolveInput reqForce).2 ≠ [] ∧ _ok_ext (resolveInput reqForce).1 = true ∧
    ((extOf (resolveInput reqForce).1 = "pptx" →
        (ppt2md extW envW reqForce).2.head? = some Event.nativeExtractPptx)
    ∧ (extOf (resolveInput reqForce).1 ≠ "pptx" →
        (ppt2md extW envW reqForce).2.head? = some Event.runSoffice)
    ∧ ∃ pre post, (ppt2md extW envW reqForce).2 = pre ++ post
        ∧ (∀ p, Event.geminiOcr p ∉ pre)
        ∧ ((∃ p, Event.geminiOcr p ∈ post) →
            Event.nativeExtractPptx ∈ pre ∨ Event.nativeExtractPdf ∈ pre)) :=
  ⟨by decide, by decide, c4_native_before_ocr extW envW reqForce (by decide) (by decide)⟩

theorem toDigitsCore_append (b fuel : Nat) :
    ∀ (n : Nat) (ds : List Char),
      Nat.toDigitsCore b fuel n ds = Nat.toDigitsCore b fuel n [] ++ ds := by
  induction fuel with
  | zero => intro n ds; rfl
  | succ fuel ih =>
      intro n ds
      simp only [Nat.toDigitsCore]
      by_cases h : n / b = 0
      · simp [h]
      · simp only [h, if_false]
        rw [ih (n / b) [Nat.digitChar (n % b)], ih (n / b) (Nat.digitChar (n % b) :: ds)]
        simp

theorem repr_last_digit (n : Nat) :
    ∃ cs, (Nat.repr n).data = cs ++ [Nat.digitChar (n % 10)] := by
  show ∃ cs, (Nat.toDigits 10 n).asString.data = cs ++ [Nat.digitChar (n % 10)]
  show ∃ cs, Nat.toDigitsCore 10 (n + 1) n [] = cs ++ [Nat.digitChar (n % 10)]
  simp only [Nat.toDigitsCore]
  by_cases h : n / 10 = 0
  · exact ⟨[], by simp [h]⟩
  · simp only [h, if_false]
    exact ⟨Nat.toDigitsCore 10 n (n / 10) [], toDigitsCore_append 10 n (n / 10) _⟩

theorem digitChar_mod10_not_ws (n : Nat) : (Nat.digitChar (n % 10)).isWhitespace = false := by
  have hb : ∀ m, m < 10 → (Nat.digitChar m).isWhitespace = false := by decide
  exact hb _ (Nat.mod_lt _ (by decide))

theorem strip_list_keeps_prefix (p : Char → Bool) (t : List Char) {l : List Char}
    (hh : ∃ c cs, l = c :: cs ∧ p c = false)
    (hlast : ∃ cs c, l = cs ++ [c] ∧ p c = false) :
    ∃ rest, (((l ++ t).dropWhile p).reverse.dropWhile p).reverse = l ++ rest := by
  obtain ⟨c, cs, rfl, hpc⟩ := hh
  obtain ⟨cs2, c2, heq, hpc2⟩ := hlast
  have hfront : ((c :: cs) ++ t).dropWhile p = (c :: cs) ++ t := by
    rw [List.cons_append, List.dropWhile_cons, hpc]
    simp
  have hback : (c :: cs).reverse.dropWhile p = (c :: cs).reverse := by
    rw [heq, List.reverse_append]
    simp only [List.reverse_cons, List.reverse_nil, List.nil_append, List.singleton_append]
    rw [List.dropWhile_cons, hpc2]
    simp
  rw [hfront, List.reverse_append, List.dropWhile_append, hback]
  by_cases hc : (t.reverse.dropWhile p).isEmpty
  · rw [if_pos hc]
    exact ⟨[], by simp⟩
  · rw [if_neg hc]
    exact ⟨(t.reverse.dropWhile p).reverse, by simp⟩

/-- Each OCR section begins with its own slide heading: stripping cannot eat
into `"# Slide {i}"`, whose first character is `#` and whose last is a
digit. -/
theorem slideSection_heading (ext : Ext) (i : Nat) :
    ∃ rest, slideSection ext i = "# Slide " ++ toString i ++ rest := by
  have hassoc : "# Slide " ++ toString i ++ "\n" ++ gemini_ocr ext i
      = ("# Slide " ++ toString i) ++ ("\n" ++ gemini_ocr ext i) := by
    rw [String.append_assoc]
  have hlist :
      ∃ restL, (slideSection ext i).data = ("# Slide " ++ toString i).data ++ restL := by
    unfold slideSection
    rw [hassoc]
    show ∃ restL,
      ((((("# Slide " ++ toString i).data ++ ("\n" ++ gemini_ocr ext i).data).dropWhile
        Char.isWhitespace).reverse.dropWhile Char.isWhitespace).reverse)
        = ("# Slide " ++ toString i).data ++ restL
    apply strip_list_keeps_prefix
    · refine ⟨'#', " Slide ".data ++ (toString i).data, ?_, by decide⟩
      rfl
    · obtain ⟨cs, hcs⟩ := repr_last_digit i
      refine ⟨"# Slide ".data ++ cs, Nat.digitChar (i % 10), ?_, digitChar_mod10_not_ws i⟩
      show ("# Slide ").data ++ (Nat.repr i).data = ("# Slide ".data ++ cs) ++ _
      rw [hcs, List.append_assoc]
  obtain ⟨restL, hL⟩ := hlist
  refine ⟨⟨restL⟩, String.ext ?_⟩
  rw [hL]
  rfl

/-- C5: when rasterization succeeds, the OCR result is exactly the join of
one per-slide section per rendered page, taken over the pages in
rasterization order `1, 2, …, numPages`; those slide numbers are strictly
increasing, and every section starts with its own `"# Slide {i}"` heading. -/
theorem c5_ocr_output_structure (ext : Ext) (ht : ext.pdftoppmOk = true) :
    (ocr_pdf_with_gemini ext).1 =
      Except.ok (pyStrip (String.intercalate "\n\n"
        ((List.range' 1 ext.numPages).map (slideSection ext))))
    ∧ (pdf_to_images ext).1 = Except.ok (List.range' 1 ext.numPages)
    ∧ List.Pairwise (· < ·) (List.range' 1 ext.numPages)
    ∧ ∀ i, ∃ rest, slideSection ext i = "# Slide " ++ toString i ++ rest := by
  refine ⟨?_, ?_, List.pairwise_lt_range' .., fun i => slideSection_heading ext i⟩
  · rw [ocr_pdf_with_gemini_ok ext ht]
    rfl
  · unfold pdf_to_images
    rw [ht]
    rfl

/-- C5 witness: the two-page concrete world. -/
theorem c5_witness :
    extW.pdftoppmOk = true ∧
    ((ocr_pdf_with_gemini extW).1 =
      Except.ok (pyStrip (String.intercalate "\n\n"
        ((List.range' 1 extW.numPages).map (slideSection extW))))
    ∧ (pdf_to_images extW).1 = Except.ok (List.range' 1 extW.numPages)
    ∧ List.Pairwise (· < ·) (List.range' 1 extW.numPages)
    ∧ ∀ i, ∃ rest, slideSection extW i = "# Slide " ++ toString i ++ rest) :=
  ⟨rfl, c5_ocr_output_structure extW rfl⟩

/-- An empty-bodied raw request. -/
def reqEmpty : Request :=
  { ocrArg := none, contentType := "", xFilename := none,
    multipartFile := none, rawBody := [] }

/-- A raw request whose `X-Filename` header carries a disallowed extension. -/
def reqBadExt : Request :=
  { ocrArg := none, contentType := "", xFilename := some "nota.txt",
    multipartFile := none, rawBody := [1] }

/-- A raw request for a legacy `.ppt` file. -/
def reqPpt : Request :=
  { ocrArg := none, contentType := "", xFilename := some "antigo.ppt",
    multipartFile := none, rawBody := [1] }

/-- Environment in which `GOOGLE_API_KEY` is unset. -/
def envNoKey : Env := { GOOGLE_API_KEY := "", MIN_TEXT_CHARS := 80 }

/-- World in which the `soffice` conversion exits non-zero. -/
def extSofficeFail : Ext :=
  { extW with sofficeOk := false, sofficeStderr := "soffice: erro" }

/-- World in which the `pdftoppm` rasterization exits non-zero. -/
def extRasterFail : Ext :=
  { extW with pdftoppmOk := false, pdftoppmStderr := "pdftoppm: erro" }

/-- C6: an empty body yields 400, and a non-empty body with a disallowed
extension yields 415; in both cases the external-call trace is empty, so no
conversion or OCR ran and no temp artifacts were created. -/
theorem c6_input_errors (ext : Ext) (env : Env) (req : Request) :
    ((resolveInput req).2 = [] →
        ppt2md ext env req = (⟨400, Body.err "Nenhum arquivo recebido"⟩, []))
    ∧ ((resolveInput req).2 ≠ [] → _ok_ext (resolveInput req).1 = false →
        ppt2md ext env req = (⟨415, Body.err "Envie .ppt ou .pptx"⟩, [])) := by
  constructor
  · intro h0
    simp [ppt2md, h0]
  · intro h0 h1
    simp [ppt2md, h0, h1]

/-- C6 witness: an empty upload and a `.txt` upload. -/
theorem c6_witness :
    ((resolveInput reqEmpty).2 = [] ∧
      ppt2md extW envW reqEmpty = (⟨400, Body.err "Nenhum arquivo recebido"⟩, []))
    ∧ ((resolveInput reqBadExt).2 ≠ [] ∧ _ok_ext (resolveInput reqBadExt).1 = false ∧
      ppt2md extW envW reqBadExt = (⟨415, Body.err "Envie .ppt ou .pptx"⟩, [])) :=
  ⟨⟨by decide, (c6_input_errors extW envW reqEmpty).1 (by decide)⟩,
   by decide, by decide, (c6_input_errors extW envW reqBadExt).2 (by decide) (by decide)⟩

/-- C7: when OCR is required but the credential is absent, the handler
returns the 500 configuration error with its hint and never calls the OCR
client, so no partial OCR text can be returned. -/
theorem c7_missing_credential (ext : Ext) (env : Env) (req : Request)
    (hs : ext.sofficeOk = true) (hp : ext.pdfProduced = true)
    (hd : (resolveInput req).2 ≠ []) (he : _ok_ext (resolveInput req).1 = true)
    (hk : env.GOOGLE_API_KEY = "")
    (hdo : do_ocr env (ocrModeOf req) (nativeTextOf ext (extOf (resolveInput req).1)) = true) :
    (ppt2md ext env req).1 =
      ⟨500, Body.errHint "OCR necessário, mas GOOGLE_API_KEY não configurada"
        "defina GOOGLE_API_KEY ou use ?ocr=off"⟩
    ∧ ∀ p, Event.geminiOcr p ∉ (ppt2md ext env req).2 := by
  rw [ppt2md_char ext env req hd he, nativeStep_ok ext (extOf (resolveInput req).1) hs hp]
  by_cases hf : extOf (resolveInput req).1 = "pptx"
  · rw [hf] at hdo
    simp [hdo, hk, hf]
  · simp [hdo, hk, hf]

/-- C7 witness: forced OCR with the credential unset. -/
theorem c7_witness :
    extW.sofficeOk = true ∧ extW.pdfProduced = true ∧
    (resolveInput reqForce).2 ≠ [] ∧ _ok_ext (resolveInput reqForce).1 = true ∧
    envNoKey.GOOGLE_API_KEY = "" ∧
    do_ocr envNoKey (ocrModeOf reqForce)
      (nativeTextOf extW (extOf (resolveInput reqForce).1)) = true ∧
    ((ppt2md extW envNoKey reqForce).1 =
      ⟨500, Body.errHint "OCR necessário, mas GOOGLE_API_KEY não configurada"
        "defina GOOGLE_API_KEY ou use ?ocr=off"⟩
    ∧ ∀ p, Event.geminiOcr p ∉ (ppt2md extW envNoKey reqForce).2) :=
  ⟨rfl, rfl, by decide, by decide, rfl, by decide,
    c7_missing_credential extW envNoKey reqForce rfl rfl (by decide) (by decide) rfl
      (by decide)⟩

/-- C8: a non-zero exit of an external conversion tool surfaces as a 500
with the captured stderr of the failed command, after exactly one attempt:
a failing `soffice` on the native path ends the request with the single
`runSoffice` call, and a failing `pdftoppm` on the OCR path ends it with
exactly one rasterization attempt. -/
theorem c8_subprocess_failure (ext : Ext) (env : Env) (req : Request)
    (hd : (resolveInput req).2 ≠ []) (he : _ok_ext (resolveInput req).1 = true) :
    (extOf (resolveInput req).1 ≠ "pptx" → ext.sofficeOk = false →
        ppt2md ext env req =
          (⟨500, Body.errDetail "Erro em conversão externa" ext.sofficeStderr⟩,
            [Event.runSoffice]))
    ∧ (ext.sofficeOk = true → ext.pdfProduced = true → ext.pdftoppmOk = false →
        do_ocr env (ocrModeOf req) (nativeTextOf ext (extOf (resolveInput req).1)) = true →
        env.GOOGLE_API_KEY ≠ "" →
        (ppt2md ext env req).1 =
          ⟨500, Body.errDetail "Erro em conversão externa" ext.pdftoppmStderr⟩
        ∧ (ppt2md ext env req).2.count Event.runPdftoppm = 1) := by
  constructor
  · intro hf hs
    rw [ppt2md_char ext env req hd he, nativeStep_soffice_fail ext _ hf hs]
    rfl
  · intro hs hp ht hdo hk
    rw [ppt2md_char ext env req hd he, nativeStep_ok ext (extOf (resolveInput req).1) hs hp]
    by_cases hf : extOf (resolveInput req).1 = "pptx"
    · rw [hf] at hdo
      simp [hdo, hk, hf, ocrStep_raster_fail ext hs hp ht, errToResponse, List.count_cons]
    · simp [hdo, hk, hf, ocrStep_raster_fail ext hs hp ht, errToResponse, List.count_cons]

/-- C8 witness: a failing `soffice` on a `.ppt` upload, and a failing
`pdftoppm` on a forced-OCR pptx upload. -/
theorem c8_witness :
    ((resolveInput reqPpt).2 ≠ [] ∧ _ok_ext (resolveInput reqPpt).1 = true ∧
      extOf (resolveInput reqPpt).1 ≠ "pptx" ∧ extSofficeFail.sofficeOk = false ∧
      ppt2md extSofficeFail envW reqPpt =
        (⟨500, Body.errDetail "Erro em conversão externa" extSofficeFail.sofficeStderr⟩,
          [Event.runSoffice]))
    ∧ ((resolveInput reqForce).2 ≠ [] ∧ _ok_ext (resolveInput reqForce).1 = true ∧
      extRasterFail.sofficeOk = true ∧ extRasterFail.pdfProduced = true ∧
      extRasterFail.pdftoppmOk = false ∧
      do_ocr envW (ocrModeOf reqForce)
        (nativeTextOf extRasterFail (extOf (resolveInput reqForce).1)) = true ∧
      envW.GOOGLE_API_KEY ≠ "" ∧
      (ppt2md extRasterFail envW reqForce).1 =
        ⟨500, Body.errDetail "Erro em conversão externa" extRasterFail.pdftoppmStderr⟩ ∧
      (ppt2md extRasterFail envW reqForce).2.count Event.runPdftoppm = 1) :=
  ⟨⟨by decide, by decide, by decide, by decide,
    (c8_subprocess_failure extSofficeFail envW reqPpt (by decide) (by decide)).1
      (by decide) (by decide)⟩,
   by decide, by decide, by decide, by decide, by decide, by decide, by decide,
    (c8_subprocess_failure extRasterFail envW reqForce (by decide) (by decide)).2
      (by decide) (by decide) (by decide) (by decide) (by decide)⟩

/-- A raw-body request with an unrecognized `ocr` value. -/
def reqBanana : Request :=
  { ocrArg := some "banana", contentType := "", xFilename := none,
    multipartFile := none, rawBody := [1] }

/-- C9: any `ocr` value that lowercases to neither `"force"` nor `"auto"`
behaves exactly as `off` mode: the whole response and trace coincide with
the same request run with `?ocr=off`, the OCR client is never invoked, and
a successful run returns the native-only payload. -/
theorem c9_unknown_mode_is_off (ext : Ext) (env : Env) (req : Request)
    (h1 : ocrModeOf req ≠ "force") (h2 : ocrModeOf req ≠ "auto") :
    ppt2md ext env req = ppt2md ext env { req with ocrArg := some "off" }
    ∧ (∀ p, Event.geminiOcr p ∉ (ppt2md ext env req).2)
    ∧ ((resolveInput req).2 ≠ [] → _ok_ext (resolveInput req).1 = true →
        ext.sofficeOk = true → ext.pdfProduced = true →
        (ppt2md ext env req).1 =
          ⟨200, Body.payload (extOf (resolveInput req).1) "markitdown-native" "native-only"
            (nativeTextOf ext (extOf (resolveInput req).1)).length
            (nativeTextOf ext (extOf (resolveInput req).1))⟩) := by
  have hdo1 : ∀ native, do_ocr env (ocrModeOf req) native = false :=
    fun native => do_ocr_false_of_ne env h1 h2 native
  refine ⟨?_, ppt2md_never_ocr ext env req hdo1,
    fun hd he hs hp => ppt2md_native_only ext env req hs hp hd he (hdo1 _)⟩
  have hoff : ocrModeOf { req with ocrArg := some "off" } = "off" := by
    show pyLower "off" = "off"
    decide
  have hdo2 : ∀ native,
      do_ocr env (ocrModeOf { req with ocrArg := some "off" }) native = false := by
    intro native
    rw [hoff]
    simp [do_ocr]
  have hres : resolveInput { req with ocrArg := some "off" } = resolveInput req := rfl
  by_cases hd : (resolveInput req).2 = []
  · simp [ppt2md, hres, hd]
  by_cases he : _ok_ext (resolveInput req).1 = true
  · rw [ppt2md_char ext env req hd he,
      ppt2md_char ext env { req with ocrArg := some "off" } (by rw [hres]; exact hd)
        (by rw [hres]; exact he)]
    simp only [hres]
    by_cases hf : extOf (resolveInput req).1 = "pptx"
    · rw [hf, nativeStep_pptx ext]
      simp [hdo1, hdo2]
    · rcases Bool.eq_false_or_eq_true ext.sofficeOk with hs | hs
      · rcases Bool.eq_false_or_eq_true ext.pdfProduced with hp | hp
        · rw [nativeStep_ok ext _ hs hp]
          simp [hdo1, hdo2, hf]
        · rw [nativeStep_nopdf ext _ hf hs hp]
      · rw [nativeStep_soffice_fail ext _ hf hs]
  · simp [ppt2md, hres, hd, he]

/-- C9 witness: `?ocr=banana` against the concrete world. -/
theorem c9_witness :
    ocrModeOf reqBanana ≠ "force" ∧ ocrModeOf reqBanana ≠ "auto" ∧
    (ppt2md extW envW reqBanana = ppt2md extW envW { reqBanana with ocrArg := some "off" }
    ∧ (∀ p, Event.geminiOcr p ∉ (ppt2md extW envW reqBanana).2)
    ∧ ((resolveInput reqBanana).2 ≠ [] → _ok_ext (resolveInput reqBanana).1 = true →
        extW.sofficeOk = true → extW.pdfProduced = true →
        (ppt2md extW envW reqBanana).1 =
          ⟨200, Body.payload (extOf (resolveInput reqBanana).1) "markitdown-native"
            "native-only"
            (nativeTextOf extW (extOf (resolveInput reqBanana).1)).length
            (nativeTextOf extW (extOf (resolveInput reqBanana).1))⟩)) :=
  ⟨by decide, by decide,
    c9_unknown_mode_is_off extW envW reqBanana (by decide) (by decide)⟩

/-- C10: without a multipart `file` field and without an `X-Filename`
header, the filename defaults to `"arquivo.pptx"`, which passes the
extension check as a pptx; a non-empty raw body is therefore processed and
can never produce the 415 disallowed-extension error. -/
theorem c10_default_filename (ext : Ext) (env : Env) (req : Request)
    (hx : req.xFilename = none)
    (hm : strContains req.contentType "multipart/form-data" = false ∨
      req.multipartFile = none) :
    (resolveInput req).1 = "arquivo.pptx"
    ∧ _ok_ext "arquivo.pptx" = true
    ∧ extOf "arquivo.pptx" = "pptx"
    ∧ (req.rawBody ≠ [] → (ppt2md ext env req).1.status ≠ 415) := by
  have h1 : resolveInput req = ("arquivo.pptx", req.rawBody) := by
    rcases hmf : req.multipartFile with _ | fb
    · simp [resolveInput, hx, hmf]
    · rcases hm with hm | hm
      · simp [resolveInput, hx, hmf, hm]
      · rw [hmf] at hm
        exact absurd hm (by simp)
  refine ⟨by rw [h1], by decide, by decide, fun hnb => ?_⟩
  have hd : (resolveInput req).2 ≠ [] := by
    rw [h1]
    exact hnb
  have he : _ok_ext (resolveInput req).1 = true := by
    rw [h1]
    show _ok_ext "arquivo.pptx" = true
    decide
  have hf : extOf (resolveInput req).1 = "pptx" := by
    rw [h1]
    show extOf "arquivo.pptx" = "pptx"
    decide
  rw [ppt2md_char ext env req hd he, hf, nativeStep_pptx ext]
  by_cases hdo : do_ocr env (ocrModeOf req) (pptx_native_text ext)
  · by_cases hk : env.GOOGLE_API_KEY = ""
    · simp [hdo, hk]
    · rcases hos : ocrStep ext with ⟨res, tr2⟩
      cases res with
      | error e => cases e <;> simp [hdo, hk, hos, errToResponse]
      | ok txt => simp [hdo, hk, hos]
  · simp [hdo]

/-- C10 witness: a headerless raw-body upload. -/
theorem c10_witness :
    reqForce.xFilename = none ∧
    (strContains reqForce.contentType "multipart/form-data" = false ∨
      reqForce.multipartFile = none) ∧
    ((resolveInput reqForce).1 = "arquivo.pptx"
    ∧ _ok_ext "arquivo.pptx" = true
    ∧ extOf "arquivo.pptx" = "pptx"
    ∧ (reqForce.rawBody ≠ [] → (ppt2md extW envW reqForce).1.status ≠ 415)) :=
  ⟨rfl, Or.inl (by decide),
    c10_default_filename extW envW reqForce rfl (Or.inl (by decide))⟩

end Ppt2Md
